import Mathlib

/-!
Verification of the iMessage incremental indexer
(`src/rag/unified/imessage_indexer.py`, class `ImessageIndexer`).

We give a shallow embedding of the fetch-mode selection
(`fetch_data`), the watermark update logic in `index`, and the
chunk adapter (`_conversation_chunk_to_unified`), and prove the
specification claims about them.

Timestamps are modelled as integers.  Python truthiness of optional
ints (`not days`, `limit or 10000`) and optional strings
(`not contact_name`, `x or "Unnamed"`) is modelled explicitly: `0`,
`None` and `""` are falsy.
-/

namespace ImessageIndexer

/-- Timestamps (e.g. seconds since an epoch). -/
abbrev Timestamp := Int

/-- Python truthiness of an `Optional[int]`: `None` and `0` are falsy. -/
def intTruthy : Option Int → Bool
  | none => false
  | some n => n != 0

/-- Python truthiness of an `Optional[str]`: `None` and `""` are falsy. -/
def strTruthy : Option String → Bool
  | none => false
  | some s => s != ""

/-- Python `limit or d` for `limit : Optional[int]`: the default is used
when `limit` is `None` or `0`. -/
def pyIntOr (limit : Option Int) (d : Int) : Int :=
  match limit with
  | none => d
  | some n => if n = 0 then d else n

/-- Python `x or d` for `x : Optional[str]`: the default is used when
`x` is `None` or `""`. -/
def pyStrOr (x : Option String) (d : String) : String :=
  match x with
  | none => d
  | some s => if s = "" then d else s

/-- A contact record as returned by the contact-identity resolver
(`get_contact_by_name`); the indexer reads its `.name` and `.phone`. -/
structure Contact where
  name : String
  phone : String
deriving Repr, DecidableEq

/-- Modelled from the spec: the Index State Tracker
(`src/rag/unified/index_state.py`, not present under `src/`): a durable
mapping from source name to a last-processed timestamp, with
`get_last_indexed` and `update_last_indexed` as its only operations. -/
structure IndexState where
  entries : List (String × Timestamp)
deriving Repr, DecidableEq

/-- Modelled from the spec: `get_last_indexed(source)` reads the
persisted watermark, `absent` signalling "never indexed". -/
def IndexState.get_last_indexed (s : IndexState) (source : String) : Option Timestamp :=
  (s.entries.find? (fun p => p.1 == source)).map Prod.snd

/-- Modelled from the spec: `update_last_indexed(source, t)` durably
records the new watermark for `source`, leaving other sources alone. -/
def IndexState.update_last_indexed (s : IndexState) (source : String) (t : Timestamp) :
    IndexState :=
  ⟨(source, t) :: s.entries.filter (fun p => p.1 != source)⟩

/-- The call `fetch_data` issues to the message-store collaborator
(`MessagesInterface`), with the arguments actually passed:
`get_messages_since(t, limit=limit)` (the raw optional limit),
`get_all_recent_conversations(limit=limit)` and
`get_recent_messages(phone, limit=limit)` (an `or`-defaulted limit). -/
inductive FetchRequest where
  | since (t : Timestamp) (limit : Option Int)
  | allRecent (limit : Int)
  | forContact (phone : String) (limit : Int)
deriving Repr, DecidableEq

/-- Model of `ImessageIndexer.fetch_data`: selects the fetch mode from the
supplied optional parameters and the stored watermark.

* `incremental and not days and not contact_name`: incremental mode —
  reads the watermark; present: `get_messages_since(last_indexed, limit)`;
  absent: `get_all_recent_conversations(limit or 10000)`.
* `elif days`: days mode — `get_messages_since(now - days, limit)`
  (`now` is the wall clock at the fetch, `days` converted via
  `timedelta(days=days)`, here `86400` seconds per day).
* `elif contact_name`: contact mode — resolves the name via the
  contacts collaborator; an unresolved name raises `ValueError`;
  otherwise `get_recent_messages(contact.phone, limit or 10000)`.
* else: full mode — `get_all_recent_conversations(limit or 10000)`.

The contacts collaborator is abstracted as `contacts : String → Option Contact`.
The function only reads the index state; it never writes it.  The
returned value is the request issued (the fetched messages themselves
come from the collaborator); `Except.error` models the raised
`ValueError`. -/
def fetch_data (state : IndexState) (contacts : String → Option Contact)
    (now : Timestamp) (days : Option Int) (limit : Option Int)
    (contact_name : Option String) (incremental : Bool) :
    Except String FetchRequest :=
  if incremental && !intTruthy days && !strTruthy contact_name then
    match state.get_last_indexed "imessage" with
    | some last_indexed => .ok (.since last_indexed limit)
    | none => .ok (.allRecent (pyIntOr limit 10000))
  else if intTruthy days then
    .ok (.since (now - (days.getD 0) * 86400) limit)
  else if strTruthy contact_name then
    match contacts (contact_name.getD "") with
    | none => .error ("Contact " ++ contact_name.getD "" ++ " not found")
    | some contact => .ok (.forContact contact.phone (pyIntOr limit 10000))
  else
    .ok (.allRecent (pyIntOr limit 10000))

/-- Model of `ImessageIndexer.index`: one whole indexing invocation.

`super().index(...)` (the fetch → chunk → embed/store pipeline of
`BaseSourceIndexer`) is modelled by running `fetch_data` — a raised
`ValueError` propagates to the caller with the state untouched — and
abstracting the embed/store collaborator outcome `result.get("success")`
as `storeSuccess : Bool` (quantified over in the theorems).  `msgs` are
the timestamps of the messages the collaborator returned for the
request; they are handed to the chunk/store pipeline, whose outcome is
already abstracted by `storeSuccess`, and the watermark update ignores
them by design ("conservative approach").  `tEnd` is the wall-clock
`datetime.now()` reading taken at the update site after the pipeline.

The update condition is exactly the one in the source,
`result.get("success") and incremental and not days`; note that it does
not consult `contact_name` (which travels in `**kwargs`).

Returns the invocation outcome and the final index state. -/
def index (state : IndexState) (contacts : String → Option Contact)
    (fetchNow : Timestamp) (days : Option Int) (limit : Option Int)
    (contact_name : Option String) (incremental : Bool)
    (msgs : List Timestamp) (storeSuccess : Bool) (tEnd : Timestamp) :
    Except String Bool × IndexState :=
  let _fetched := msgs
  match fetch_data state contacts fetchNow days limit contact_name incremental with
  | .error e => (.error e, state)
  | .ok _req =>
      if storeSuccess && incremental && !intTruthy days then
        (.ok storeSuccess, state.update_last_indexed "imessage" tEnd)
      else
        (.ok storeSuccess, state)

/-- Shape of `ConversationChunk` as consumed by the adapter: the fields the
adapter reads (`chunk_id`, `contact`, `is_group`, `group_name`, `text`,
`word_count`, `message_count`, `start_time`, `end_time`,
`duration_minutes`, and `metadata.get("phones", [])`). -/
structure ConversationChunk where
  chunk_id : String
  contact : String
  is_group : Bool
  group_name : Option String
  text : String
  word_count : Nat
  message_count : Nat
  start_time : Timestamp
  end_time : Timestamp
  duration_minutes : Int
  phones : List String
deriving Repr, DecidableEq

/-- Shape of `UnifiedChunk` with the fields the adapter constructs; the open
metadata bag is flattened into the four keys the adapter writes. -/
structure UnifiedChunk where
  chunk_id : String
  source : String
  text : String
  title : String
  context_id : String
  context_type : String
  timestamp : Timestamp
  end_timestamp : Timestamp
  participants : List String
  tags : List String
  word_count : Nat
  meta_message_count : Nat
  meta_duration_minutes : Int
  meta_is_group : Bool
  meta_group_name : String
deriving Repr, DecidableEq

/-- Model of `ImessageIndexer._conversation_chunk_to_unified`: maps a
`ConversationChunk` to a `UnifiedChunk`, or `none` (Python `None`,
"skip") when `not conv_chunk.text or conv_chunk.word_count < 10`.

For group chunks the participants are `list(set([contact] + phones))`;
the Python set iteration order is unspecified, so we fix the
first-occurrence order (`dedup` keeps the first copy of each element);
the underlying set of participants is faithful. -/
def conversation_chunk_to_unified (c : ConversationChunk) : Option UnifiedChunk :=
  if c.text = "" || c.word_count < 10 then
    none
  else
    let title :=
      if c.is_group then "Group: " ++ pyStrOr c.group_name "Unnamed"
      else "Conversation with " ++ c.contact
    let participants :=
      if c.is_group then (c.contact :: c.phones).dedup else [c.contact]
    let tags := if c.is_group then ["group_chat"] else []
    some
      { chunk_id := c.chunk_id
        source := "imessage"
        text := c.text
        title := title
        context_id := c.contact
        context_type := "conversation"
        timestamp := c.start_time
        end_timestamp := c.end_time
        participants := participants
        tags := tags
        word_count := c.word_count
        meta_message_count := c.message_count
        meta_duration_minutes := c.duration_minutes
        meta_is_group := c.is_group
        meta_group_name := pyStrOr c.group_name "" }

/-- The configuration defaults of `ImessageIndexer.__init__`. -/
def default_min_words : Nat := 20

/-- Reading back the watermark just written. -/
theorem get_update_self (s : IndexState) (source : String) (t : Timestamp) :
    (s.update_last_indexed source t).get_last_indexed source = some t := by
  simp [IndexState.update_last_indexed, IndexState.get_last_indexed, List.find?]

/-- A concrete index state with an existing watermark at time 100. -/
def exState : IndexState := ⟨[("imessage", 100)]⟩

/-- A concrete contacts collaborator resolving only the name Alice. -/
def exContacts : String → Option Contact :=
  fun n => if n = "Alice" then some ⟨"Alice", "+15550001111"⟩ else none

/-- C3: for every indexing invocation whose result does not report
success (`result.get("success")` falsy), `update_last_indexed` is never
called: the final index state is the initial one, so the previously
stored watermark is retained unchanged. -/
theorem no_success_no_watermark_update (state : IndexState)
    (contacts : String → Option Contact) (fetchNow : Timestamp)
    (days limit : Option Int) (contact_name : Option String)
    (incremental : Bool) (msgs : List Timestamp) (tEnd : Timestamp) :
    (index state contacts fetchNow days limit contact_name incremental msgs false tEnd).2
      = state := by
  unfold index
  cases fetch_data state contacts fetchNow days limit contact_name incremental <;> simp

/-- C4: every incremental invocation (incremental true, no day count, no
identity filter) whose result reports success sets the watermark to the
processing-time clock reading `tEnd` taken at run completion, whatever
the timestamps of the fetched messages are: the final state does not
depend on `msgs` at all, so in particular the watermark is not the
maximum observed message timestamp. -/
theorem incremental_success_watermark_is_now (state : IndexState)
    (contacts : String → Option Contact) (fetchNow : Timestamp)
    (limit : Option Int) (msgs : List Timestamp) (tEnd : Timestamp) :
    ((index state contacts fetchNow none limit none true msgs true tEnd).2).get_last_indexed
        "imessage" = some tEnd ∧
    (index state contacts fetchNow none limit none true msgs true tEnd).2
      = (index state contacts fetchNow none limit none true [] true tEnd).2 := by
  constructor
  · unfold index fetch_data
    simp only [intTruthy, strTruthy, Bool.not_false, Bool.and_true, Bool.true_and]
    cases state.get_last_indexed "imessage" <;>
      simp [get_update_self]
  · rfl

/-- C5: a time-ranged invocation (an explicit positive day count) never
mutates the stored index state, for any store outcome, incremental flag
and identity filter: the state after the run is the state before. -/
theorem days_mode_watermark_untouched (state : IndexState)
    (contacts : String → Option Contact) (fetchNow : Timestamp) (d : Int)
    (hd : 0 < d) (limit : Option Int) (contact_name : Option String)
    (incremental : Bool) (msgs : List Timestamp) (storeSuccess : Bool)
    (tEnd : Timestamp) :
    (index state contacts fetchNow (some d) limit contact_name incremental
        msgs storeSuccess tEnd).2 = state := by
  have hdne : d ≠ 0 := ne_of_gt hd
  unfold index fetch_data
  simp [intTruthy, hdne]

/-- Witness for C5 at the concrete input `days = 7`. -/
theorem days_mode_watermark_untouched_w :
    (0 : Int) < 7 ∧
    (index exState exContacts 200 (some 7) none none true [] true 999).2 = exState :=
  ⟨by decide,
    days_mode_watermark_untouched exState exContacts 200 7 (by decide) none none true [] true 999⟩

/-- C9: an invocation with `days = 0`, incremental true and no identity
filter behaves as an incremental run, not a time-ranged one (Python
`not days` is true for `days = 0`): the fetch decision is the same as
with no day count at all, the whole run coincides with the
no-day-count run, and on a successful result the watermark is advanced
to the completion-time clock reading. -/
theorem days_zero_is_incremental (state : IndexState)
    (contacts : String → Option Contact) (fetchNow : Timestamp)
    (limit : Option Int) (msgs : List Timestamp) (storeSuccess : Bool)
    (tEnd : Timestamp) :
    fetch_data state contacts fetchNow (some 0) limit none true
      = fetch_data state contacts fetchNow none limit none true ∧
    index state contacts fetchNow (some 0) limit none true msgs storeSuccess tEnd
      = index state contacts fetchNow none limit none true msgs storeSuccess tEnd ∧
    ((index state contacts fetchNow (some 0) limit none true msgs true tEnd).2).get_last_indexed
        "imessage" = some tEnd := by
  refine ⟨?_, ?_, ?_⟩
  · unfold fetch_data
    simp [intTruthy]
  · unfold index fetch_data
    simp [intTruthy]
  · unfold index fetch_data
    simp only [intTruthy, strTruthy, Bool.not_false, Bool.and_true, Bool.true_and,
      bne_self_eq_false]
    cases state.get_last_indexed "imessage" <;>
      simp [get_update_self]

/-- C1 (exhibiting the divergence): an identity-scoped invocation
(`contact_name` supplied and resolvable) with the default
`incremental = true` and a successful store DOES advance the watermark:
the update condition `success and incremental and not days` never
consults `contact_name`.  Here the stored watermark 100 is overwritten
with the completion-time reading 300. -/
theorem contact_mode_advances_watermark :
    exState.get_last_indexed "imessage" = some 100 ∧
    (index exState exContacts 200 none none (some "Alice") true [] true 300).2
      = (⟨[("imessage", 300)]⟩ : IndexState) := by
  constructor
  · rfl
  · rfl

/-- A direct-message chunk with 15 words of nonempty text: above the
hardcoded adapter threshold 10 but below the configured default
`min_words = 20`. -/
def midChunk : ConversationChunk :=
  { chunk_id := "chunk-mid"
    contact := "+15550001111"
    is_group := false
    group_name := none
    text := "one two three four five six seven eight nine ten eleven twelve alpha beta gamma"
    word_count := 15
    message_count := 3
    start_time := 0
    end_time := 60
    duration_minutes := 1
    phones := [] }

/-- C2 counterexample: the adapter skip test is the hardcoded
`word_count < 10`, not the configured `min_words`.  With the default
configuration `min_words = 20`, a chunk with nonempty text and word
count 15 would have to be skipped under the claim, but the adapter
converts it. -/
theorem adapter_skip_not_min_words :
    (conversation_chunk_to_unified midChunk).isSome = true ∧
    midChunk.word_count < default_min_words ∧ midChunk.text ≠ "" := by
  refine ⟨rfl, by decide, by decide⟩

/-- C2 (amended): the adapter signals skip (returns `none`) if and only
if the text of the chunk is empty or its word count is below the
hardcoded threshold 10 — independent of the configured `min_words`. -/
theorem adapter_skip_iff (c : ConversationChunk) :
    conversation_chunk_to_unified c = none ↔ (c.text = "" ∨ c.word_count < 10) := by
  unfold conversation_chunk_to_unified
  by_cases h : c.text = "" ∨ c.word_count < 10
  · rcases h with h | h <;> simp [h]
  · push_neg at h
    simp [h.1, h.2, Nat.not_lt.mpr h.2]

/-- C6 counterexample: an incremental first run (watermark absent) with
the caller-supplied limit `0` is NOT bounded by that limit: the request
issued is `get_all_recent_conversations(limit=10000)` (Python
`limit or 10000` treats `0` as falsy), not a fetch bounded by `0`. -/
theorem first_run_zero_limit_not_caller_bound :
    fetch_data ⟨[]⟩ exContacts 0 none (some 0) none true = .ok (.allRecent 10000) ∧
    (10000 : Int) ≠ 0 := by
  exact ⟨rfl, by decide⟩

/-- C6 (amended): for every incremental invocation (incremental true, no
day count, no identity filter): with a stored watermark the request is
`get_messages_since(watermark, limit)` with the caller-supplied limit
passed through unchanged; with no watermark it is a full fetch
`get_all_recent_conversations` bounded by the caller-supplied limit,
defaulting to 10000 when the limit is absent or `0` (Python
`limit or 10000`). -/
theorem incremental_fetch_decision (state : IndexState)
    (contacts : String → Option Contact) (now : Timestamp) (limit : Option Int) :
    fetch_data state contacts now none limit none true
      = .ok (match state.get_last_indexed "imessage" with
             | some wm => .since wm limit
             | none => .allRecent (pyIntOr limit 10000)) := by
  unfold fetch_data
  cases state.get_last_indexed "imessage" <;> simp [intTruthy, strTruthy]

/-- C7: an identity-scoped invocation (a nonempty `contact_name`, no day
count) raises `ValueError` exactly when the contacts collaborator cannot
resolve the name; a resolvable name does not raise and fetches that
identity with the or-defaulted limit. -/
theorem contact_mode_error_iff (state : IndexState)
    (contacts : String → Option Contact) (now : Timestamp) (limit : Option Int)
    (incremental : Bool) (name : String) (h : name ≠ "") :
    fetch_data state contacts now none limit (some name) incremental
      = (match contacts name with
         | none => .error ("Contact " ++ name ++ " not found")
         | some contact => .ok (.forContact contact.phone (pyIntOr limit 10000))) := by
  unfold fetch_data
  cases hc : contacts name <;>
    simp [intTruthy, strTruthy, h, hc]

/-- Witness for C7 at the concrete names Bob (unresolvable) and Alice
(resolvable). -/
theorem contact_mode_error_iff_w :
    ("Bob" ≠ "" ∧
      fetch_data exState exContacts 0 none none (some "Bob") true
        = .error "Contact Bob not found") ∧
    ("Alice" ≠ "" ∧
      fetch_data exState exContacts 0 none none (some "Alice") true
        = .ok (.forContact "+15550001111" 10000)) :=
  ⟨⟨by decide, contact_mode_error_iff exState exContacts 0 none true "Bob" (by decide)⟩,
   ⟨by decide, contact_mode_error_iff exState exContacts 0 none true "Alice" (by decide)⟩⟩

/-- C8: whenever the adapter converts a chunk (does not skip), the
produced unified chunk carries over the conversation chunk identifier
unchanged; no new identifier is generated. -/
theorem chunk_id_carried_over (c : ConversationChunk) (u : UnifiedChunk)
    (h : conversation_chunk_to_unified c = some u) : u.chunk_id = c.chunk_id := by
  unfold conversation_chunk_to_unified at h
  split at h
  · exact absurd h (by simp)
  · cases Option.some.inj h
    rfl

/-- Witness for C8: the image of `midChunk` under the adapter. -/
def midChunkUnified : UnifiedChunk :=
  { chunk_id := "chunk-mid"
    source := "imessage"
    text := "one two three four five six seven eight nine ten eleven twelve alpha beta gamma"
    title := "Conversation with +15550001111"
    context_id := "+15550001111"
    context_type := "conversation"
    timestamp := 0
    end_timestamp := 60
    participants := ["+15550001111"]
    tags := []
    word_count := 15
    meta_message_count := 3
    meta_duration_minutes := 1
    meta_is_group := false
    meta_group_name := "" }

/-- Witness for C8 at the concrete chunk `midChunk`. -/
theorem chunk_id_carried_over_w :
    conversation_chunk_to_unified midChunk = some midChunkUnified ∧
    midChunkUnified.chunk_id = midChunk.chunk_id :=
  ⟨rfl, chunk_id_carried_over midChunk midChunkUnified rfl⟩

/-- C10: a full fetch (incremental false, nothing else supplied), a
first-run fetch (incremental true, watermark absent) and an
identity-scoped fetch (resolvable nonempty name), each invoked with
limit `0`, all use the default limit 10000 instead of `0`: a zero limit
is treated like an absent one by `limit or 10000`. -/
theorem zero_limit_uses_default (state : IndexState)
    (contacts : String → Option Contact) (now : Timestamp) (name : String)
    (c : Contact) (h0 : state.get_last_indexed "imessage" = none)
    (h1 : name ≠ "") (h2 : contacts name = some c) :
    fetch_data state contacts now none (some 0) none false = .ok (.allRecent 10000) ∧
    fetch_data state contacts now none (some 0) none true = .ok (.allRecent 10000) ∧
    fetch_data state contacts now none (some 0) (some name) true
      = .ok (.forContact c.phone 10000) := by
  refine ⟨?_, ?_, ?_⟩
  · unfold fetch_data
    simp [intTruthy, strTruthy, pyIntOr]
  · unfold fetch_data
    simp [intTruthy, strTruthy, h0, pyIntOr]
  · unfold fetch_data
    simp [intTruthy, strTruthy, h1, h2, pyIntOr]

/-- Witness for C10 at the empty state and the name Alice. -/
theorem zero_limit_uses_default_w :
    (⟨[]⟩ : IndexState).get_last_indexed "imessage" = none ∧
    "Alice" ≠ "" ∧
    exContacts "Alice" = some ⟨"Alice", "+15550001111"⟩ ∧
    fetch_data ⟨[]⟩ exContacts 0 none (some 0) (some "Alice") true
      = .ok (.forContact "+15550001111" 10000) :=
  ⟨rfl, by decide, rfl,
    (zero_limit_uses_default ⟨[]⟩ exContacts 0 "Alice" ⟨"Alice", "+15550001111"⟩
      rfl (by decide) rfl).2.2⟩

end ImessageIndexer
